import Mathlib

/-!
Verification of the recipe-explorer external-source integration layer.

This file gives a shallow embedding, in Lean 4, of the Python code in
`app/validation.py`, `app/adapters/themealdb.py` and `app/services/cache.py`,
and proves (or refutes) the specification claims about it.

Modelling conventions:
* Python values that can flow through JSON payloads and recipe dicts are
  modelled by the inductive type `PyVal` (strings, ints, bools, None, lists,
  dicts, plus `datetime` objects produced by the schema migration).
* Python dicts are association lists with unique keys (`PyDict`); `dget`,
  `dset`, `dpop` mirror `d.get(k)`, `d[k] = v`, `d.pop(k, None)`.  On the
  Python-representable inputs (unique keys) these agree with dict semantics.
* Fallible Python code is embedded in `Except PyErr`; an uncaught Python
  exception surfaces as `Except.error`.
* External effects (HTTP call, cache reads/writes) are oracles passed as
  arguments, and the adapter functions additionally return the list of
  effects they performed, in order.
-/

namespace RecipeExplorer

/-- Uncaught Python exception kinds relevant to the embedded code. -/
inductive PyErr
  | attributeError
  | typeError
  | valueError
deriving DecidableEq

/-- A `datetime.datetime` value: either parsed from civil fields
(`datetime.fromisoformat`) or built from a numeric unix timestamp
(pydantic's lax coercion). The timezone is an offset in minutes. -/
inductive PyDateTime
  | civil (year month day hour minute second usec : Nat) (tzMinutes : Option Int)
  | ofTimestamp (n : Int)
deriving DecidableEq

/-- Python values as they appear in JSON payloads and recipe dicts. -/
inductive PyVal
  | str (s : String)
  | int (n : Int)
  | bool (b : Bool)
  | none
  | list (xs : List PyVal)
  | dict (kvs : List (String × PyVal))
  | datetime (d : PyDateTime)

/-- A Python dict with string keys. -/
abbrev PyDict := List (String × PyVal)

/-- `d.get(k)` / `k in d`: first-match association lookup. -/
def dget : PyDict → String → Option PyVal
  | [], _ => Option.none
  | (key, v) :: rest, k => if key = k then some v else dget rest k

/-- `d.get(k, default)`. -/
def dgetD (m : PyDict) (k : String) (default : PyVal) : PyVal :=
  (dget m k).getD default

/-- `k in d`. -/
def hasKey (m : PyDict) (k : String) : Bool :=
  (dget m k).isSome

/-- `d[k] = v`: update in place if the key exists, else append. -/
def dset : PyDict → String → PyVal → PyDict
  | [], k, v => [(k, v)]
  | (key, w) :: rest, k, v =>
      if key = k then (k, v) :: rest else (key, w) :: dset rest k v

/-- `d.pop(k, None)` (the dict after the pop): removes the entry for `k`.
On unique-key dicts, removing every match equals removing the one match. -/
def dpop : PyDict → String → PyDict
  | [], _ => []
  | (key, w) :: rest, k => if key = k then dpop rest k else (key, w) :: dpop rest k

/-- The characters stripped by Python's `str.strip()` (ASCII whitespace;
the embedded code only ever strips ASCII payload text). -/
def isPySpace (c : Char) : Bool :=
  c = ' ' ∨ c = '\t' ∨ c = '\n' ∨ c = '\r' ∨ c = '\x0b' ∨ c = '\x0c'

/-- Python `str.strip()`. -/
def pyStrip (s : String) : String :=
  (((s.toList.dropWhile isPySpace).reverse.dropWhile isPySpace).reverse).asString

/-- `isPrefixOfChars p cs`: `p` is a prefix of `cs`. -/
def isPrefixOfChars : List Char → List Char → Bool
  | [], _ => true
  | _ :: _, [] => false
  | p :: ps, c :: cs => p = c && isPrefixOfChars ps cs

/-- Fuel-driven split on a (non-empty) separator, left-to-right,
non-overlapping, keeping empty parts — Python `str.split(sep)` semantics.
The fuel (≥ input length + 1) only serves structural recursion. -/
def charsSplitOn (sep : List Char) : Nat → List Char → List Char → List (List Char)
  | 0, acc, _ => [acc.reverse]
  | _ + 1, acc, [] => [acc.reverse]
  | fuel + 1, acc, c :: cs =>
      if isPrefixOfChars sep (c :: cs) then
        acc.reverse :: charsSplitOn sep fuel [] ((c :: cs).drop sep.length)
      else
        charsSplitOn sep fuel (c :: acc) cs

/-- Python `s.split(sep)` for a non-empty separator. -/
def pySplit (s sep : String) : List String :=
  (charsSplitOn sep.toList (s.toList.length + 1) [] s.toList).map List.asString

/-- Fuel-driven replace, left-to-right, non-overlapping —
Python `str.replace(pat, rep)` semantics for a non-empty pattern. -/
def charsReplace (pat rep : List Char) : Nat → List Char → List Char
  | 0, cs => cs
  | _ + 1, [] => []
  | fuel + 1, c :: cs =>
      if isPrefixOfChars pat (c :: cs) then
        rep ++ charsReplace pat rep fuel ((c :: cs).drop pat.length)
      else
        c :: charsReplace pat rep fuel cs

/-- Python `s.replace(pat, rep)` for a non-empty pattern. -/
def pyReplace (s pat rep : String) : String :=
  (charsReplace pat.toList rep.toList (s.toList.length + 1) s.toList).asString

/-- Python truthiness (`bool(v)`). -/
def truthy : PyVal → Bool
  | .str s => s ≠ ""
  | .int n => n ≠ 0
  | .bool b => b
  | .none => false
  | .list xs => ¬ xs.isEmpty
  | .dict kvs => ¬ kvs.isEmpty
  | .datetime _ => true

/-- `a or b` on Python values (returns `a` when truthy, else `b`). -/
def pyOr (a b : PyVal) : PyVal :=
  if truthy a then a else b

/-- Whether a value is a Python `str` (`isinstance(v, str)`). -/
def PyVal.isStr : PyVal → Bool
  | .str _ => true
  | _ => false

/-- `type(v).__name__`. -/
def pyTypeName : PyVal → String
  | .str _ => "str"
  | .int _ => "int"
  | .bool _ => "bool"
  | .none => "NoneType"
  | .list _ => "list"
  | .dict _ => "dict"
  | .datetime _ => "datetime"

/-- Zero-padded decimal rendering, for `str(datetime)`. -/
def natPad2 (n : Nat) : String :=
  if n < 10 then "0" ++ toString n else toString n

/-- `str(datetime.datetime(...))`, e.g. "2024-01-01 00:00:00". -/
def pyDateTimeStr : PyDateTime → String
  | .civil y mo d hh mm ss _ _ =>
      toString y ++ "-" ++ natPad2 mo ++ "-" ++ natPad2 d ++ " " ++
        natPad2 hh ++ ":" ++ natPad2 mm ++ ":" ++ natPad2 ss
  | .ofTimestamp n => "timestamp " ++ toString n

/-- Python `repr` of a string: quote choice and the common escapes
(backslash, quote, newline, carriage return, tab). Escaping of other
non-printable characters is not modelled; no claim evaluates it. -/
def pyStrRepr (s : String) : String :=
  let quote : Char := if s.contains '\x27' ∧ ¬ s.contains '"' then '"' else '\x27'
  let escape : Char → String := fun c =>
    if c = '\\' then "\\\\"
    else if c = quote then "\\" ++ quote.toString
    else if c = '\n' then "\\n"
    else if c = '\r' then "\\r"
    else if c = '\t' then "\\t"
    else c.toString
  quote.toString ++ String.join (s.toList.map escape) ++ quote.toString

mutual

/-- Python `repr(v)`. -/
def pyRepr : PyVal → String
  | .str s => pyStrRepr s
  | .int n => toString n
  | .bool b => if b then "True" else "False"
  | .none => "None"
  | .list xs => "[" ++ pyReprListAux xs ++ "]"
  | .dict kvs => "\x7b" ++ pyReprDictAux kvs ++ "\x7d"
  | .datetime d => pyDateTimeStr d

/-- Comma-joined reprs of list elements. -/
def pyReprListAux : List PyVal → String
  | [] => ""
  | [x] => pyRepr x
  | x :: rest => pyRepr x ++ ", " ++ pyReprListAux rest

/-- Comma-joined reprs of dict entries. -/
def pyReprDictAux : List (String × PyVal) → String
  | [] => ""
  | [(k, v)] => pyStrRepr k ++ ": " ++ pyRepr v
  | (k, v) :: rest => pyStrRepr k ++ ": " ++ pyRepr v ++ ", " ++ pyReprDictAux rest

end

/-- Python `str(v)`. -/
def pyStr : PyVal → String
  | .str s => s
  | v => pyRepr v

/-! ## `datetime.fromisoformat`

A model of CPython's `datetime.fromisoformat` on the formats the repository
can feed it: `YYYY-MM-DD` / `YYYYMMDD`, optionally followed by a one-character
separator and `HH[:MM[:SS[.digits]]]`, optionally followed by `Z` or a
`±HH:MM` / `±HHMM` offset.  Out-of-range fields are rejected, as CPython does.
(Exotic ISO-8601 forms such as week dates are not modelled; no claim uses
them.) -/

/-- Numeric value of a two-digit character pair. -/
def twoDigits (a b : Char) : Nat :=
  (a.toNat - 48) * 10 + (b.toNat - 48)

/-- Leap-year rule used by `datetime`. -/
def isLeapYear (y : Nat) : Bool :=
  y % 4 = 0 ∧ (y % 100 ≠ 0 ∨ y % 400 = 0)

/-- Days in a month, as validated by `datetime`. -/
def daysInMonth (y mo : Nat) : Nat :=
  if mo = 2 then (if isLeapYear y then 29 else 28)
  else if mo = 4 ∨ mo = 6 ∨ mo = 9 ∨ mo = 11 then 30
  else 31

/-- `datetime` field-range validation for a civil date. -/
def validDate (y mo d : Nat) : Bool :=
  1 ≤ y ∧ y ≤ 9999 ∧ 1 ≤ mo ∧ mo ≤ 12 ∧ 1 ≤ d ∧ d ≤ daysInMonth y mo

/-- Parse the date part: `YYYY-MM-DD` or `YYYYMMDD`; returns the remainder. -/
def parseIsoDate : List Char → Option (Nat × Nat × Nat × List Char)
  | y1 :: y2 :: y3 :: y4 :: rest =>
      if y1.isDigit ∧ y2.isDigit ∧ y3.isDigit ∧ y4.isDigit then
        let y := twoDigits y1 y2 * 100 + twoDigits y3 y4
        match rest with
        | '-' :: m1 :: m2 :: '-' :: d1 :: d2 :: rest2 =>
            if m1.isDigit ∧ m2.isDigit ∧ d1.isDigit ∧ d2.isDigit then
              some (y, twoDigits m1 m2, twoDigits d1 d2, rest2)
            else Option.none
        | m1 :: m2 :: d1 :: d2 :: rest2 =>
            if m1.isDigit ∧ m2.isDigit ∧ d1.isDigit ∧ d2.isDigit then
              some (y, twoDigits m1 m2, twoDigits d1 d2, rest2)
            else Option.none
        | _ => Option.none
      else Option.none
  | _ => Option.none

/-- Parse an optional trailing UTC offset (`Z`, `±HH:MM`, `±HHMM`). -/
def parseIsoOffset : List Char → Option (Option Int)
  | [] => some Option.none
  | ['Z'] => some (some 0)
  | ['z'] => some (some 0)
  | sign :: h1 :: h2 :: ':' :: m1 :: m2 :: [] =>
      if (sign = '+' ∨ sign = '-') ∧ h1.isDigit ∧ h2.isDigit ∧ m1.isDigit ∧ m2.isDigit
          ∧ twoDigits h1 h2 ≤ 23 ∧ twoDigits m1 m2 ≤ 59 then
        let mins : Int := twoDigits h1 h2 * 60 + twoDigits m1 m2
        some (some (if sign = '-' then -mins else mins))
      else Option.none
  | sign :: h1 :: h2 :: m1 :: m2 :: [] =>
      if (sign = '+' ∨ sign = '-') ∧ h1.isDigit ∧ h2.isDigit ∧ m1.isDigit ∧ m2.isDigit
          ∧ twoDigits h1 h2 ≤ 23 ∧ twoDigits m1 m2 ≤ 59 then
        let mins : Int := twoDigits h1 h2 * 60 + twoDigits m1 m2
        some (some (if sign = '-' then -mins else mins))
      else Option.none
  | _ => Option.none

/-- Value of up to six fractional-second digits, scaled to microseconds. -/
def fracToUsec (ds : List Char) : Nat :=
  let six := ds.take 6
  (six.foldl (fun acc c => acc * 10 + (c.toNat - 48)) 0) * 10 ^ (6 - six.length)

/-- Parse the time-of-day part `HH[:MM[:SS[.digits]]]` plus optional offset. -/
def parseIsoTime (cs : List Char) : Option (Nat × Nat × Nat × Nat × Option Int) :=
  match cs with
  | h1 :: h2 :: rest =>
      if h1.isDigit ∧ h2.isDigit ∧ twoDigits h1 h2 ≤ 23 then
        let hh := twoDigits h1 h2
        match rest with
        | ':' :: m1 :: m2 :: rest2 =>
            if m1.isDigit ∧ m2.isDigit ∧ twoDigits m1 m2 ≤ 59 then
              let mm := twoDigits m1 m2
              match rest2 with
              | ':' :: s1 :: s2 :: rest3 =>
                  if s1.isDigit ∧ s2.isDigit ∧ twoDigits s1 s2 ≤ 59 then
                    let ss := twoDigits s1 s2
                    match rest3 with
                    | '.' :: fs =>
                        let ds := fs.takeWhile Char.isDigit
                        if ds.isEmpty then Option.none
                        else
                          (parseIsoOffset (fs.drop ds.length)).map
                            (fun tz => (hh, mm, ss, fracToUsec ds, tz))
                    | _ =>
                        (parseIsoOffset rest3).map (fun tz => (hh, mm, ss, 0, tz))
                  else Option.none
              | _ => (parseIsoOffset rest2).map (fun tz => (hh, mm, 0, 0, tz))
            else Option.none
        | _ => (parseIsoOffset rest).map (fun tz => (hh, 0, 0, 0, tz))
      else Option.none
  | _ => Option.none

/-- `datetime.fromisoformat(s)`; `Option.none` models the raised `ValueError`. -/
def pyFromIsoformat (s : String) : Option PyDateTime :=
  match parseIsoDate s.toList with
  | Option.none => Option.none
  | some (y, mo, d, rest) =>
      if validDate y mo d then
        match rest with
        | [] => some (.civil y mo d 0 0 0 0 Option.none)
        | _ :: timecs =>
            (parseIsoTime timecs).map
              (fun r => .civil y mo d r.1 r.2.1 r.2.2.1 r.2.2.2.1 r.2.2.2.2)
      else Option.none

/-! ## `app/validation.py`: `migrate_legacy_recipe_format`

The function is a straight-line pipeline; each step below embeds one block
of the Python source, in source order. -/

/-- The list a legacy `instructions` string is migrated to:
split on blank lines, strip, drop empties; if nothing remains, wrap the
original string as a single-element list. -/
def instructionsToList (s : String) : PyVal :=
  let steps := (pySplit s "\n\n").filterMap
    (fun part => let t := pyStrip part; if t = "" then Option.none else some t)
  .list ((if steps.isEmpty then [s] else steps).map PyVal.str)

/-- `if isinstance(data.get("instructions"), str): data["instructions"] = ...`. -/
def migrateInstructions (data : PyDict) : PyDict :=
  match dget data "instructions" with
  | some (.str s) => dset data "instructions" (instructionsToList s)
  | _ => data

/-- `if k not in data: data[k] = v`. -/
def ensureField (data : PyDict) (k : String) (v : PyVal) : PyDict :=
  if hasKey data k then data else dset data k v

/-- `if k in data and isinstance(data[k], str): data[k] = datetime.fromisoformat(data[k])`;
a malformed string makes `fromisoformat` raise `ValueError`. -/
def migrateDateField (data : PyDict) (k : String) : Except PyErr PyDict :=
  match dget data k with
  | some (.str s) =>
      match pyFromIsoformat s with
      | some d => .ok (dset data k (.datetime d))
      | Option.none => .error .valueError
  | _ => .ok data

/-- `migrate_legacy_recipe_format` (`app/validation.py`, lines 14-42). -/
def migrate_legacy_recipe_format (recipe_dict : PyDict) : Except PyErr PyDict :=
  let data := migrateInstructions recipe_dict
  let data := dpop data "difficulty"
  let data := ensureField data "cuisine" .none
  let data := ensureField data "tags" (.list [])
  match migrateDateField data "created_at" with
  | .error e => .error e
  | .ok data =>
      match migrateDateField data "updated_at" with
      | .error e => .error e
      | .ok data => .ok data

/-- The condition under which `migrate_legacy_recipe_format` does not raise:
any `created_at` / `updated_at` string value parses as ISO-8601. -/
def datesParseable (m : PyDict) : Bool :=
  (match dget m "created_at" with
   | some (.str s) => (pyFromIsoformat s).isSome
   | _ => true) &&
  (match dget m "updated_at" with
   | some (.str s) => (pyFromIsoformat s).isSome
   | _ => true)

/-! ## Dictionary lemmas -/

theorem dget_dset_self (m : PyDict) (k : String) (v : PyVal) :
    dget (dset m k v) k = some v := by
  induction m with
  | nil => simp [dset, dget]
  | cons kv rest ih =>
      obtain ⟨key, w⟩ := kv
      by_cases h : key = k
      · simp [dset, h, dget]
      · simp [dset, h, dget, ih]

theorem dget_dset_ne (m : PyDict) (k1 k2 : String) (v : PyVal) (h : k1 ≠ k2) :
    dget (dset m k2 v) k1 = dget m k1 := by
  induction m with
  | nil => simp [dset, dget, Ne.symm h]
  | cons kv rest ih =>
      obtain ⟨key, w⟩ := kv
      by_cases hk : key = k2
      · subst hk
        simp [dset, dget, Ne.symm h]
      · by_cases hk1 : key = k1
        · simp [dset, hk, dget, hk1, h]
        · simp [dset, hk, dget, hk1, ih]

theorem dget_dpop_self (m : PyDict) (k : String) : dget (dpop m k) k = Option.none := by
  induction m with
  | nil => simp [dpop, dget]
  | cons kv rest ih =>
      obtain ⟨key, w⟩ := kv
      by_cases hk : key = k
      · simpa [dpop, hk] using ih
      · simpa [dpop, hk, dget] using ih

theorem dget_dpop_ne (m : PyDict) (k1 k2 : String) (h : k1 ≠ k2) :
    dget (dpop m k2) k1 = dget m k1 := by
  induction m with
  | nil => simp [dpop, dget]
  | cons kv rest ih =>
      obtain ⟨key, w⟩ := kv
      by_cases hk : key = k2
      · subst hk
        have hne : key ≠ k1 := fun he => h he.symm
        simpa [dpop, dget, hne] using ih
      · by_cases hk1 : key = k1
        · simp [dpop, hk, dget, hk1, h]
        · simp [dpop, hk, dget, hk1, ih]

theorem dpop_eq_self (m : PyDict) (k : String) (h : dget m k = Option.none) :
    dpop m k = m := by
  induction m with
  | nil => simp [dpop]
  | cons kv rest ih =>
      obtain ⟨key, w⟩ := kv
      by_cases hk : key = k
      · simp [dget, hk] at h
      · simp [dget, hk] at h
        simp [dpop, hk, ih h]

theorem hasKey_dset_mono (m : PyDict) (k1 k2 : String) (v : PyVal)
    (h : hasKey m k1 = true) : hasKey (dset m k2 v) k1 = true := by
  by_cases hk : k1 = k2
  · subst hk
    simp [hasKey, dget_dset_self]
  · simpa [hasKey, dget_dset_ne m k1 k2 v hk] using h

/-- `dget` through `ensureField` at a different key. -/
theorem dget_ensureField_ne (m : PyDict) (k1 k2 : String) (v : PyVal) (h : k1 ≠ k2) :
    dget (ensureField m k2 v) k1 = dget m k1 := by
  unfold ensureField
  split
  · rfl
  · exact dget_dset_ne m k1 k2 v h

theorem hasKey_ensureField_self (m : PyDict) (k : String) (v : PyVal) :
    hasKey (ensureField m k v) k = true := by
  unfold ensureField
  split
  · assumption
  · simp [hasKey, dget_dset_self]

theorem hasKey_ensureField_mono (m : PyDict) (k1 k2 : String) (v : PyVal)
    (h : hasKey m k1 = true) : hasKey (ensureField m k2 v) k1 = true := by
  unfold ensureField
  split
  · exact h
  · exact hasKey_dset_mono m k1 k2 v h

theorem ensureField_eq_self (m : PyDict) (k : String) (v : PyVal)
    (h : hasKey m k = true) : ensureField m k v = m := by
  simp [ensureField, h]

/-- "The value at key `k`, if any, is not a Python `str`." -/
def notStrAt (m : PyDict) (k : String) : Prop :=
  ∀ s, dget m k ≠ some (.str s)

/-! ## Normalizer stage lemmas -/

theorem notStrAt_migrateInstructions (m : PyDict) :
    notStrAt (migrateInstructions m) "instructions" := by
  unfold migrateInstructions
  split
  · intro s
    rw [dget_dset_self]
    intro he
    injection he with he2
    exact absurd he2 (by simp [instructionsToList])
  · next hns =>
      intro s he
      exact hns s he

theorem dget_migrateInstructions_ne (m : PyDict) (k : String)
    (h : k ≠ "instructions") : dget (migrateInstructions m) k = dget m k := by
  unfold migrateInstructions
  split
  · exact dget_dset_ne m k "instructions" _ h
  · rfl

theorem migrateInstructions_eq_self (m : PyDict)
    (h : notStrAt m "instructions") : migrateInstructions m = m := by
  unfold migrateInstructions
  split
  · next s hs => exact absurd hs (h s)
  · rfl

theorem migrateDateField_dget_ne (m m2 : PyDict) (k1 k2 : String)
    (hok : migrateDateField m k2 = .ok m2) (h : k1 ≠ k2) :
    dget m2 k1 = dget m k1 := by
  unfold migrateDateField at hok
  split at hok
  · split at hok
    · injection hok with he
      rw [← he]
      exact dget_dset_ne m k1 k2 _ h
    · exact absurd hok (by simp)
  · injection hok with he
    rw [← he]

theorem migrateDateField_notStrAt (m m2 : PyDict) (k : String)
    (hok : migrateDateField m k = .ok m2) : notStrAt m2 k := by
  unfold migrateDateField at hok
  split at hok
  · split at hok
    · injection hok with he
      intro s
      rw [← he, dget_dset_self]
      intro hcontra
      injection hcontra with hcontra2
      exact PyVal.noConfusion hcontra2
    · exact absurd hok (by simp)
  · next hns =>
      injection hok with he
      intro s
      rw [← he]
      exact hns s

theorem migrateDateField_hasKey (m m2 : PyDict) (k1 k2 : String)
    (hok : migrateDateField m k2 = .ok m2) (h : hasKey m k1 = true) :
    hasKey m2 k1 = true := by
  unfold migrateDateField at hok
  split at hok
  · split at hok
    · injection hok with he
      rw [← he]
      exact hasKey_dset_mono m k1 k2 _ h
    · exact absurd hok (by simp)
  · injection hok with he
    rw [← he]
    exact h

theorem migrateDateField_eq_self (m : PyDict) (k : String)
    (h : notStrAt m k) : migrateDateField m k = .ok m := by
  unfold migrateDateField
  split
  · next s hs => exact absurd hs (h s)
  · rfl

theorem migrateDateField_ok_of_parseable (m : PyDict) (k : String)
    (h : (match dget m k with
          | some (.str s) => (pyFromIsoformat s).isSome
          | _ => true) = true) :
    ∃ m2, migrateDateField m k = .ok m2 := by
  unfold migrateDateField
  split
  · next s hs =>
      rw [hs] at h
      obtain ⟨d, hd⟩ := Option.isSome_iff_exists.mp h
      rw [hd]
      exact ⟨_, rfl⟩
  · exact ⟨_, rfl⟩

/-! ## Claims C2 and C3: totality and idempotence of the Schema Normalizer -/

/-- An input on which `datetime.fromisoformat` raises `ValueError`. -/
def malformedDateRecipe : PyDict := [("created_at", PyVal.str "not-a-date")]

/-- Counterexample to claim C2 as stated: `migrate_legacy_recipe_format` is
not total — on a mapping whose `created_at` is a malformed date string,
`datetime.fromisoformat` raises `ValueError`, which the function does not
catch. -/
theorem migrate_legacy_raises_on_malformed_date :
    migrate_legacy_recipe_format malformedDateRecipe = .error .valueError := rfl

/-- C2 (amended): `migrate_legacy_recipe_format` returns a normalized mapping
without raising for every input mapping whose `created_at` / `updated_at`
values, when they are strings, are well-formed ISO-8601 timestamps; on a
malformed such string it raises `ValueError` (so it is not total). -/
theorem migrate_legacy_recipe_format_total_when_dates_parse (m : PyDict)
    (h : datesParseable m = true) :
    (migrate_legacy_recipe_format m).isOk = true := by
  simp only [datesParseable, Bool.and_eq_true] at h
  obtain ⟨h1, h2⟩ := h
  have hca4 : dget (ensureField (ensureField (dpop (migrateInstructions m) "difficulty")
      "cuisine" PyVal.none) "tags" (PyVal.list [])) "created_at" = dget m "created_at" := by
    rw [dget_ensureField_ne _ _ _ _ (by decide), dget_ensureField_ne _ _ _ _ (by decide),
        dget_dpop_ne _ _ _ (by decide), dget_migrateInstructions_ne _ _ (by decide)]
  obtain ⟨d5, h5⟩ := migrateDateField_ok_of_parseable _ "created_at" (by rw [hca4]; exact h1)
  have hua5 : dget d5 "updated_at" = dget m "updated_at" := by
    rw [migrateDateField_dget_ne _ _ _ _ h5 (by decide),
        dget_ensureField_ne _ _ _ _ (by decide), dget_ensureField_ne _ _ _ _ (by decide),
        dget_dpop_ne _ _ _ (by decide), dget_migrateInstructions_ne _ _ (by decide)]
  obtain ⟨d6, h6⟩ := migrateDateField_ok_of_parseable d5 "updated_at" (by rw [hua5]; exact h2)
  simp only [migrate_legacy_recipe_format, h5, h6, Except.isOk, Except.toBool]

/-- A mapping with a well-formed `created_at` string. -/
def parseableDateRecipe : PyDict :=
  [("title", PyVal.str "x"), ("created_at", PyVal.str "2024-01-15")]

/-- Witness for C2 (amended) at a concrete input. -/
theorem migrate_legacy_recipe_format_total_when_dates_parse_witness :
    datesParseable parseableDateRecipe = true ∧
      (migrate_legacy_recipe_format parseableDateRecipe).isOk = true :=
  ⟨rfl, migrate_legacy_recipe_format_total_when_dates_parse parseableDateRecipe rfl⟩

/-- C3: `migrate_legacy_recipe_format` is idempotent — whenever it returns a
mapping `y`, re-applying it to `y` returns `y` unchanged
(`migrate(migrate(x)) = migrate(x)` wherever `migrate(x)` is defined). -/
theorem migrate_legacy_recipe_format_idempotent (x y : PyDict)
    (h : migrate_legacy_recipe_format x = .ok y) :
    migrate_legacy_recipe_format y = .ok y := by
  simp only [migrate_legacy_recipe_format] at h
  cases h5 : migrateDateField (ensureField (ensureField (dpop (migrateInstructions x)
      "difficulty") "cuisine" PyVal.none) "tags" (PyVal.list [])) "created_at" with
  | error e => rw [h5] at h; exact absurd h (by simp)
  | ok d5 =>
      simp only [h5] at h
      cases h6 : migrateDateField d5 "updated_at" with
      | error e =>
          simp only [h6] at h
          exact absurd h (by simp)
      | ok d6 =>
          simp only [h6, Except.ok.injEq] at h
          rw [h] at h6
          have hinstr : notStrAt y "instructions" := by
            intro s
            rw [migrateDateField_dget_ne d5 y "instructions" "updated_at" h6 (by decide),
                migrateDateField_dget_ne _ d5 "instructions" "created_at" h5 (by decide),
                dget_ensureField_ne _ "instructions" "tags" _ (by decide),
                dget_ensureField_ne _ "instructions" "cuisine" _ (by decide),
                dget_dpop_ne _ "instructions" "difficulty" (by decide)]
            exact notStrAt_migrateInstructions x s
          have hdiff : dget y "difficulty" = Option.none := by
            rw [migrateDateField_dget_ne d5 y "difficulty" "updated_at" h6 (by decide),
                migrateDateField_dget_ne _ d5 "difficulty" "created_at" h5 (by decide),
                dget_ensureField_ne _ "difficulty" "tags" _ (by decide),
                dget_ensureField_ne _ "difficulty" "cuisine" _ (by decide)]
            exact dget_dpop_self _ _
          have hcui : hasKey y "cuisine" = true :=
            migrateDateField_hasKey d5 y "cuisine" "updated_at" h6
              (migrateDateField_hasKey _ d5 "cuisine" "created_at" h5
                (hasKey_ensureField_mono _ "cuisine" "tags" _
                  (hasKey_ensureField_self _ "cuisine" _)))
          have htags : hasKey y "tags" = true :=
            migrateDateField_hasKey d5 y "tags" "updated_at" h6
              (migrateDateField_hasKey _ d5 "tags" "created_at" h5
                (hasKey_ensureField_self _ "tags" _))
          have hca : notStrAt y "created_at" := by
            intro s
            rw [migrateDateField_dget_ne d5 y "created_at" "updated_at" h6 (by decide)]
            exact migrateDateField_notStrAt _ d5 "created_at" h5 s
          have hua : notStrAt y "updated_at" := migrateDateField_notStrAt d5 y "updated_at" h6
          simp only [migrate_legacy_recipe_format,
            migrateInstructions_eq_self y hinstr, dpop_eq_self y _ hdiff,
            ensureField_eq_self y _ _ hcui, ensureField_eq_self y _ _ htags,
            migrateDateField_eq_self y _ hca, migrateDateField_eq_self y _ hua]

/-- A legacy-format input: `instructions` as a blank-line-separated string. -/
def legacyInstructionsRecipe : PyDict := [("instructions", PyVal.str "a\n\nb")]

/-- The normalized form of `legacyInstructionsRecipe`. -/
def legacyInstructionsRecipeMigrated : PyDict :=
  [("instructions", PyVal.list [PyVal.str "a", PyVal.str "b"]),
   ("cuisine", PyVal.none), ("tags", PyVal.list [])]

/-- Witness for C3 at a concrete input. -/
theorem migrate_legacy_recipe_format_idempotent_witness :
    migrate_legacy_recipe_format legacyInstructionsRecipeMigrated =
      .ok legacyInstructionsRecipeMigrated :=
  migrate_legacy_recipe_format_idempotent legacyInstructionsRecipe
    legacyInstructionsRecipeMigrated rfl

/-! ## `app/adapters/themealdb.py`: the transform -/

/-- Strip a leading enumeration marker: `re.sub(r"^\d+[\.\)]\s*", "", part)`. -/
def stripLeadingNumber (s : String) : String :=
  let cs := s.toList
  let ds := cs.takeWhile Char.isDigit
  if ds.isEmpty then s
  else
    match cs.drop ds.length with
    | c :: rest =>
        if c = '.' ∨ c = ')' then (rest.dropWhile isPySpace).asString else s
    | [] => s

/-- The per-line cleaning step of `_build_instructions`:
strip, drop if empty, remove a leading enumeration marker, drop if empty. -/
def cleanStep (part : String) : Option String :=
  let t := pyStrip part
  if t = "" then Option.none
  else
    let t2 := stripLeadingNumber t
    if t2 = "" then Option.none else some t2

/-- `_build_instructions` (`themealdb.py`, lines 42-56).  `strInstructions`
that is truthy but not a string makes `raw.replace(...)` raise
`AttributeError`. -/
def _build_instructions (meal : PyDict) : Except PyErr (List String) :=
  let raw := pyOr (dgetD meal "strInstructions" .none) (.str "")
  if truthy raw = false then .ok ["No instructions provided."]
  else
    match raw with
    | .str s =>
        let steps := (pySplit (pyReplace s "\r\n" "\n") "\n").filterMap cleanStep
        .ok (if steps.isEmpty then [s] else steps)
    | _ => .error .attributeError

/-- `_build_ingredients` (`themealdb.py`, lines 25-39). -/
def _build_ingredients (meal : PyDict) : List String :=
  (List.range' 1 20).filterMap (fun i =>
    let ing := dgetD meal ("strIngredient" ++ toString i) .none
    let measure := dgetD meal ("strMeasure" ++ toString i) .none
    if truthy ing then
      if pyStrip (pyStr ing) = "" then Option.none
      else
        let measureStr := if truthy measure then pyStrip (pyStr measure) else ""
        if measureStr ≠ "" then some (pyStrip (measureStr ++ " " ++ pyStr ing))
        else some (pyStrip (pyStr ing))
    else Option.none)

/-- `_build_tags` (`themealdb.py`, lines 59-68). -/
def _build_tags (meal : PyDict) : List String :=
  let rawTags := dgetD meal "strTags" .none
  let tags :=
    if truthy rawTags then
      if pyStrip (pyStr rawTags) = "" then []
      else (pySplit (pyStr rawTags) ",").filterMap
        (fun t => let t2 := pyStrip t; if t2 = "" then Option.none else some t2)
    else []
  let category := dgetD meal "strCategory" .none
  if truthy category then
    if pyStrip (pyStr category) = "" then tags
    else tags ++ [pyStrip (pyStr category)]
  else tags

/-- The dict returned by `transform_meal_to_recipe`; fields that the code can
fill with non-string raw values keep type `PyVal`. -/
structure MealRecord where
  id : String
  title : PyVal
  description : PyVal
  ingredients : List String
  instructions : List String
  tags : List String
  cuisine : PyVal
  source : String
  image_url : PyVal
  external_id : String

/-- `transform_meal_to_recipe` (`themealdb.py`, lines 71-95). -/
def transform_meal_to_recipe (meal : PyDict) : Except PyErr MealRecord :=
  let meal_id := pyStr (dgetD meal "idMeal" (.str ""))
  let title := pyOr (dgetD meal "strMeal" .none) (.str "Untitled")
  match _build_instructions meal with
  | .error e => .error e
  | .ok instructions_list =>
      let description := instructions_list.headD ""
      let description :=
        if instructions_list.length > 1 then
          (if description.length > 100 then description ++ "..." else description)
        else description
      .ok
        { id := "external-" ++ meal_id
          title := title
          description := pyOr (.str description) title
          ingredients := _build_ingredients meal
          instructions := instructions_list
          tags := _build_tags meal
          cuisine := pyOr (dgetD meal "strArea" .none) .none
          source := "external"
          image_url := dgetD meal "strMealThumb" .none
          external_id := meal_id }

/-! ## Transform lemmas -/

theorem cleanStep_ne_empty (p s : String) (h : cleanStep p = some s) : s ≠ "" := by
  simp only [cleanStep] at h
  split at h
  · exact absurd h (by simp)
  · split at h
    · exact absurd h (by simp)
    · next h2 =>
        injection h with h3
        subst h3
        exact h2

/-- Every list `_build_instructions` returns is non-empty with a non-empty
first element. -/
theorem _build_instructions_ok (meal : PyDict) (l : List String)
    (h : _build_instructions meal = .ok l) : l ≠ [] ∧ l.headD "" ≠ "" := by
  simp only [_build_instructions] at h
  split at h
  · injection h with h2
    subst h2
    exact ⟨by simp, by simp⟩
  · next hraw =>
      split at h
      · next s heq =>
          rw [heq] at hraw
          have hs : s ≠ "" := by simpa [truthy] using hraw
          injection h with h2
          subst h2
          by_cases hsteps :
              ((pySplit (pyReplace s "\r\n" "\n") "\n").filterMap cleanStep).isEmpty
          · simp [hsteps, hs]
          · rw [if_neg hsteps]
            rcases hst : (pySplit (pyReplace s "\r\n" "\n") "\n").filterMap cleanStep with
              _ | ⟨a, rest⟩
            · rw [hst] at hsteps
              simp at hsteps
            · have ha : a ∈ (pySplit (pyReplace s "\r\n" "\n") "\n").filterMap cleanStep := by
                rw [hst]
                exact List.mem_cons_self a rest
              obtain ⟨p, _, hp2⟩ := List.mem_filterMap.mp ha
              have hane : a ≠ "" := cleanStep_ne_empty p a hp2
              exact ⟨by simp, by simpa using hane⟩
      · exact absurd h (by simp)

/-- Structure of every record `transform_meal_to_recipe` produces: the
instructions list is non-empty, its first element is a non-empty string, and
the description is the first instruction with the length-dependent ellipsis
rule applied. -/
theorem transform_description_eq (meal : PyDict) (rec : MealRecord)
    (h : transform_meal_to_recipe meal = .ok rec) :
    rec.instructions ≠ [] ∧ rec.instructions.headD "" ≠ "" ∧
      rec.description = .str
        (if rec.instructions.length > 1 then
          (if (rec.instructions.headD "").length > 100 then
            rec.instructions.headD "" ++ "..."
          else rec.instructions.headD "")
        else rec.instructions.headD "") := by
  simp only [transform_meal_to_recipe] at h
  split at h
  · exact absurd h (by simp)
  · next l heq =>
      obtain ⟨hne, hhead⟩ := _build_instructions_ok meal l heq
      injection h with h2
      subst h2
      refine ⟨hne, hhead, ?_⟩
      have hdesc :
          (if l.length > 1 then
            (if (l.headD "").length > 100 then l.headD "" ++ "..." else l.headD "")
          else l.headD "") ≠ "" := by
        split
        · split
          · intro hc
            have hlen := congrArg String.length hc
            simp [String.length_append] at hlen
            exact absurd hlen.2 (by decide)
          · exact hhead
        · exact hhead
      have hpy : ∀ b : String, b ≠ "" →
          pyOr (PyVal.str b) (pyOr (dgetD meal "strMeal" PyVal.none) (PyVal.str "Untitled")) =
            PyVal.str b := by
        intro b hb
        simp [pyOr, truthy, hb]
      exact hpy _ hdesc

/-! ## Claims C5, C9, C10: the transform -/

/-- The spec's Teriyaki worked example (raw TheMealDB record). -/
def teriyakiMeal : PyDict :=
  [("idMeal", .str "52772"), ("strMeal", .str "Teriyaki Chicken Casserole"),
   ("strCategory", .str "Chicken"), ("strArea", .str "Japanese"),
   ("strInstructions", .str "Preheat oven to 350F.\r\nSpray a pan."),
   ("strIngredient1", .str "soy sauce"), ("strMeasure1", .str "3/4 cup"),
   ("strTags", .str "Meat,Casserole")]

/-- `transform_meal_to_recipe teriyakiMeal`. -/
def teriyakiRecord : MealRecord :=
  { id := "external-52772", title := .str "Teriyaki Chicken Casserole",
    description := .str "Preheat oven to 350F.",
    ingredients := ["3/4 cup soy sauce"],
    instructions := ["Preheat oven to 350F.", "Spray a pan."],
    tags := ["Meat", "Casserole", "Chicken"],
    cuisine := .str "Japanese", source := "external",
    image_url := .none, external_id := "52772" }

/-- The spec's minimal worked example. -/
def minimalMeal : PyDict := [("idMeal", .str "123"), ("strMeal", .str "Simple Meal")]

/-- `transform_meal_to_recipe minimalMeal`. -/
def minimalRecord : MealRecord :=
  { id := "external-123", title := .str "Simple Meal",
    description := .str "No instructions provided.",
    ingredients := [], instructions := ["No instructions provided."],
    tags := [], cuisine := .none, source := "external",
    image_url := .none, external_id := "123" }

/-- C5: `transform_meal_to_recipe` satisfies the spec's two worked examples:
the Teriyaki raw record yields id "external-52772", an ingredients list
containing "3/4 cup soy sauce", instructions
["Preheat oven to 350F.", "Spray a pan."], tags containing "Meat",
"Casserole" and "Chicken", and cuisine "Japanese"; the minimal record yields
ingredients [] and instructions ["No instructions provided."]. -/
theorem transform_meal_to_recipe_worked_examples :
    transform_meal_to_recipe teriyakiMeal = .ok teriyakiRecord ∧
    teriyakiRecord.id = "external-52772" ∧
    "3/4 cup soy sauce" ∈ teriyakiRecord.ingredients ∧
    teriyakiRecord.instructions = ["Preheat oven to 350F.", "Spray a pan."] ∧
    "Meat" ∈ teriyakiRecord.tags ∧
    "Casserole" ∈ teriyakiRecord.tags ∧
    "Chicken" ∈ teriyakiRecord.tags ∧
    teriyakiRecord.cuisine = .str "Japanese" ∧
    transform_meal_to_recipe minimalMeal = .ok minimalRecord ∧
    minimalRecord.ingredients = [] ∧
    minimalRecord.instructions = ["No instructions provided."] := by
  refine ⟨rfl, rfl, ?_, rfl, ?_, ?_, ?_, rfl, rfl, rfl, rfl⟩ <;> simp [teriyakiRecord]

/-- C9: the transformed description is the first element of the computed
instructions list; when that list has more than one element and its first
element exceeds 100 characters an ellipsis marker is appended; and whenever
the computed description is empty the description falls back to the title
(vacuously: the first instruction is never empty). -/
theorem transform_description_spec (meal : PyDict) (rec : MealRecord)
    (h : transform_meal_to_recipe meal = .ok rec) :
    rec.description = .str
      (if rec.instructions.length > 1 ∧ (rec.instructions.headD "").length > 100 then
        rec.instructions.headD "" ++ "..."
      else rec.instructions.headD "") ∧
    (rec.instructions.headD "" = "" → rec.description = rec.title) := by
  obtain ⟨hne, hhead, hdesc⟩ := transform_description_eq meal rec h
  constructor
  · rw [hdesc]
    by_cases h1 : rec.instructions.length > 1
    · by_cases h2 : (rec.instructions.headD "").length > 100
      · simp [h1, h2]
      · simp [h1, h2]
    · simp [h1]
  · intro he
    exact absurd he hhead

/-- Witness for C9 at the minimal worked example. -/
theorem transform_description_spec_witness :
    minimalRecord.description = .str
      (if minimalRecord.instructions.length > 1 ∧
          (minimalRecord.instructions.headD "").length > 100 then
        minimalRecord.instructions.headD "" ++ "..."
      else minimalRecord.instructions.headD "") ∧
    (minimalRecord.instructions.headD "" = "" →
      minimalRecord.description = minimalRecord.title) :=
  transform_description_spec minimalMeal minimalRecord rfl

/-- C10: every record `transform_meal_to_recipe` produces has a non-empty
instructions list and a non-empty string description (the two Recipe
invariants), while its ingredients list may be empty (as the minimal worked
example shows). -/
theorem transform_record_invariants :
    (∀ meal rec, transform_meal_to_recipe meal = .ok rec →
      rec.instructions ≠ [] ∧ rec.description.isStr = true ∧ pyStr rec.description ≠ "") ∧
    transform_meal_to_recipe minimalMeal = .ok minimalRecord ∧
    minimalRecord.ingredients = [] := by
  refine ⟨?_, rfl, rfl⟩
  intro meal rec h
  obtain ⟨hne, hhead, hdesc⟩ := transform_description_eq meal rec h
  refine ⟨hne, by rw [hdesc]; rfl, ?_⟩
  rw [hdesc]
  show (if rec.instructions.length > 1 then
      (if (rec.instructions.headD "").length > 100 then rec.instructions.headD "" ++ "..."
      else rec.instructions.headD "")
    else rec.instructions.headD "") ≠ ""
  split
  · split
    · intro hc
      have hlen := congrArg String.length hc
      simp [String.length_append] at hlen
      exact absurd hlen.2 (by decide)
    · exact hhead
  · exact hhead

/-- Witness for C10 at the minimal worked example. -/
theorem transform_record_invariants_witness :
    minimalRecord.instructions ≠ [] ∧ minimalRecord.description.isStr = true ∧
      pyStr minimalRecord.description ≠ "" :=
  transform_record_invariants.1 minimalMeal minimalRecord rfl

/-! ## `TheMealDBAdapter`: `search_meals` and `get_meal_by_id`

The network and the injected cache backend are external collaborators; they
are modelled as oracles passed to the embedded methods.  Each method also
returns the ordered list of external effects it performed (cache reads,
the HTTP request, cache writes), so that "no network call is made" is a
statement about the returned effect trace. -/

/-- Outcome of the HTTP block (`client.get` / `raise_for_status` /
`response.json()`): one constructor per `except` clause of the source, plus
a parsed JSON body on success.  `jsonDecodeError` (malformed body) and
`otherError` both land in the generic `except Exception` clause. -/
inductive HttpOutcome
  | timeout
  | connectError
  | httpStatusError
  | jsonDecodeError
  | otherError
  | success (body : PyVal)

/-- Result of `cache.get_search(query)` as seen by the adapter:
a cached list, a miss (`None`), or an exception (caught by the adapter). -/
inductive CacheSearchRes
  | hit (results : List MealRecord)
  | miss
  | raised

/-- Result of `cache.get_meal(id)` as seen by the adapter: the
`"__CACHED_NONE__"` sentinel, a cached record, a miss, or an exception. -/
inductive CacheMealRes
  | hitSentinel
  | hitRecord (r : MealRecord)
  | miss
  | raised

/-- The injected `CacheBackend`, as the adapter observes it.  Cached values
are the records the adapter itself stores (writes are modelled as effects). -/
structure CacheBackend where
  is_available : Bool
  get_search : String → CacheSearchRes
  get_meal : String → CacheMealRes

/-- External interactions of one adapter call, in order. -/
inductive AdapterEffect
  | cacheGetSearch (query : String)
  | cacheGetMeal (meal_id : String)
  | httpGet
  | cacheSetSearch (query : String)
  | cacheSetMeal (meal_id : String)
deriving DecidableEq

/-- The `meals`-container processing of `search_meals` (lines 172-184):
`None` yields `[]`; iterating a list transforms each dict element, skipping
per-record failures and non-dict elements; iterating a string or a dict
yields non-dict elements (characters / keys), so everything is skipped;
`for m in meals` over a non-iterable raises `TypeError`. -/
def searchResults : PyVal → Except PyErr (List MealRecord)
  | .none => .ok []
  | .list ms => .ok (ms.filterMap (fun m =>
      match m with
      | .dict md => (transform_meal_to_recipe md).toOption
      | _ => Option.none))
  | .str _ => .ok []
  | .dict _ => .ok []
  | .int _ => .error .typeError
  | .bool _ => .error .typeError
  | .datetime _ => .error .typeError

/-- `TheMealDBAdapter.search_meals` (`themealdb.py`, lines 121-190),
as a function of the cache backend, the HTTP outcome and the query.
Returns the Python result (or the uncaught exception) plus the effect
trace.  Note `data.get("meals")` sits outside the `try` block: a non-dict
JSON body raises `AttributeError` that nothing catches. -/
def TheMealDBAdapter.search_meals (cache : CacheBackend) (http : HttpOutcome)
    (query : String) : Except PyErr (List MealRecord) × List AdapterEffect :=
  if query = "" ∨ pyStrip query = "" then (.ok [], [])
  else
    let cacheStep : Option (List MealRecord) × List AdapterEffect :=
      if cache.is_available then
        match cache.get_search query with
        | .hit results => (some results, [.cacheGetSearch query])
        | .miss => (Option.none, [.cacheGetSearch query])
        | .raised => (Option.none, [.cacheGetSearch query])
      else (Option.none, [])
    match cacheStep with
    | (some results, effs) => (.ok results, effs)
    | (Option.none, effs) =>
        let effs := effs ++ [.httpGet]
        match http with
        | .timeout => (.ok [], effs)
        | .connectError => (.ok [], effs)
        | .httpStatusError => (.ok [], effs)
        | .jsonDecodeError => (.ok [], effs)
        | .otherError => (.ok [], effs)
        | .success body =>
            match body with
            | .dict d =>
                match searchResults (dgetD d "meals" .none) with
                | .error e => (.error e, effs)
                | .ok results => (.ok results, effs ++ [.cacheSetSearch query])
            | _ => (.error .attributeError, effs)

/-- `TheMealDBAdapter.get_meal_by_id` (`themealdb.py`, lines 192-272).
Same conventions as `search_meals`; `data.get("meals")` is likewise outside
the `try` block. -/
def TheMealDBAdapter.get_meal_by_id (cache : CacheBackend) (http : HttpOutcome)
    (meal_id : String) : Except PyErr (Option MealRecord) × List AdapterEffect :=
  if meal_id = "" ∨ pyStrip meal_id = "" then (.ok Option.none, [])
  else
    let cacheStep : Option (Option MealRecord) × List AdapterEffect :=
      if cache.is_available then
        match cache.get_meal meal_id with
        | .hitSentinel => (some Option.none, [.cacheGetMeal meal_id])
        | .hitRecord r => (some (some r), [.cacheGetMeal meal_id])
        | .miss => (Option.none, [.cacheGetMeal meal_id])
        | .raised => (Option.none, [.cacheGetMeal meal_id])
      else (Option.none, [])
    match cacheStep with
    | (some res, effs) => (.ok res, effs)
    | (Option.none, effs) =>
        let effs := effs ++ [.httpGet]
        match http with
        | .timeout => (.ok Option.none, effs)
        | .connectError => (.ok Option.none, effs)
        | .httpStatusError => (.ok Option.none, effs)
        | .jsonDecodeError => (.ok Option.none, effs)
        | .otherError => (.ok Option.none, effs)
        | .success body =>
            match body with
            | .dict d =>
                match dgetD d "meals" .none with
                | .list (m0 :: _) =>
                    match m0 with
                    | .dict md =>
                        if md.isEmpty then
                          (.ok Option.none, effs ++ [.cacheSetMeal meal_id])
                        else
                          match transform_meal_to_recipe md with
                          | .ok r => (.ok (some r), effs ++ [.cacheSetMeal meal_id])
                          | .error _ => (.ok Option.none, effs)
                    | _ => (.ok Option.none, effs ++ [.cacheSetMeal meal_id])
                | _ => (.ok Option.none, effs ++ [.cacheSetMeal meal_id])
            | _ => (.error .attributeError, effs)

/-! ## Claims C1 and C4: adapter error handling and blank inputs -/

/-- An adapter constructed with no cache backend (`NoOpCacheBackend`):
unavailable, all reads miss. -/
def unavailableCache : CacheBackend :=
  { is_available := false, get_search := fun _ => .miss, get_meal := fun _ => .miss }

/-- C1 is wrong on the code (code bug): on a 2xx response whose JSON body is
not an object — e.g. the valid JSON body `[]` — `data.get("meals")` (placed
outside the `try` block, lines 172 / 247) raises an uncaught
`AttributeError` from both `search_meals` and `get_meal_by_id`; and
`search_meals` raises an uncaught `TypeError` when the `meals` field is a
non-`None` non-iterable such as `5`.  This contradicts the claim and the
functions' own docstrings ("On error, returns empty list / None — graceful
degradation"). -/
theorem adapter_raises_on_non_object_body :
    TheMealDBAdapter.search_meals unavailableCache (.success (.list [])) "chicken" =
      (.error .attributeError, [.httpGet]) ∧
    TheMealDBAdapter.get_meal_by_id unavailableCache (.success (.list [])) "52772" =
      (.error .attributeError, [.httpGet]) ∧
    TheMealDBAdapter.search_meals unavailableCache
        (.success (.dict [("meals", .int 5)])) "chicken" =
      (.error .typeError, [.httpGet]) :=
  ⟨rfl, rfl, rfl⟩

/-- C4: for every cache backend and HTTP outcome, a blank or whitespace-only
query/id makes `search_meals` return `[]` and `get_meal_by_id` return `None`
with an empty effect trace — no cache read and no network call. -/
theorem adapter_blank_inputs_no_effects (cache : CacheBackend) (http : HttpOutcome)
    (query meal_id : String) (hq : pyStrip query = "") (hi : pyStrip meal_id = "") :
    TheMealDBAdapter.search_meals cache http query = (.ok [], []) ∧
    TheMealDBAdapter.get_meal_by_id cache http meal_id = (.ok Option.none, []) := by
  constructor
  · unfold TheMealDBAdapter.search_meals
    rw [if_pos (Or.inr hq)]
  · unfold TheMealDBAdapter.get_meal_by_id
    rw [if_pos (Or.inr hi)]

/-- Witness for C4 at concrete whitespace-only inputs. -/
theorem adapter_blank_inputs_no_effects_witness :
    TheMealDBAdapter.search_meals unavailableCache .timeout "   " = (.ok [], []) ∧
    TheMealDBAdapter.get_meal_by_id unavailableCache .timeout " " = (.ok Option.none, []) :=
  adapter_blank_inputs_no_effects unavailableCache .timeout "   " " " rfl rfl

/-! ## `app/services/cache.py`: `RedisCacheBackend.get_meal` / `set_meal`

Redis (via `decode_responses=True`) is a string-keyed store of string
values; it is modelled as an association list.  `json.dumps` / `json.loads`
are passed in as parameters — the claims proved here hold for every choice
of them, because the absent-sentinel paths never serialize JSON. -/

/-- The Redis key/value store (`decode_responses=True`: string values). -/
abbrev RedisStore := List (String × String)

/-- `r.get(key)`. -/
def redisGet : RedisStore → String → Option String
  | [], _ => Option.none
  | (key, v) :: rest, k => if key = k then some v else redisGet rest k

/-- `r.set(key, value, ex=...)` (the TTL only bounds lifetime externally). -/
def redisSet : RedisStore → String → String → RedisStore
  | [], k, v => [(k, v)]
  | (key, w) :: rest, k, v =>
      if key = k then (k, v) :: rest else (key, w) :: redisSet rest k v

/-- `CACHE_KEY_MEAL` (`cache.py`, line 18). -/
def CACHE_KEY_MEAL : String := "mealdb:meal:"

/-- What `RedisCacheBackend.get_meal` returns to its caller when it does not
miss: the `"__CACHED_NONE__"` confirmed-absent sentinel string, or a cached
dict. -/
inductive MealCacheValue
  | cachedNone
  | value (d : PyDict)

/-- `RedisCacheBackend.get_meal` (`cache.py`, lines 82-98).  `r` is the lazy
client (`None` when Redis is unavailable); `Option.none` as result models a
miss (`None`), which is also what a backend exception degrades to. -/
def RedisCacheBackend.get_meal (loads : String → Option PyVal)
    (r : Option RedisStore) (meal_id : String) : Option MealCacheValue :=
  match r with
  | Option.none => Option.none
  | some store =>
      let key := CACHE_KEY_MEAL ++ pyStrip meal_id
      match redisGet store key with
      | Option.none => Option.none
      | some raw =>
          if raw = "__NONE__" then some .cachedNone
          else
            match loads raw with
            | some (.dict d) => some (.value d)
            | _ => Option.none

/-- `RedisCacheBackend.set_meal` (`cache.py`, lines 100-112); returns the
store after the write (unchanged when Redis is unavailable). -/
def RedisCacheBackend.set_meal (dumps : PyDict → String)
    (r : Option RedisStore) (meal_id : String) (value : Option PyDict) :
    Option RedisStore :=
  match r with
  | Option.none => Option.none
  | some store =>
      let key := CACHE_KEY_MEAL ++ pyStrip meal_id
      some (redisSet store key
        (match value with
         | Option.none => "__NONE__"
         | some v => dumps v))

theorem redisGet_redisSet_self (store : RedisStore) (k v : String) :
    redisGet (redisSet store k v) k = some v := by
  induction store with
  | nil => simp [redisSet, redisGet]
  | cons kv rest ih =>
      obtain ⟨key, w⟩ := kv
      by_cases h : key = k
      · simp [redisSet, h, redisGet]
      · simp [redisSet, h, redisGet, ih]

/-! ## Claim C6: the confirmed-absent sentinel round-trip -/

/-- C6: on an available cache backend, for every id (and any JSON
serialization), `set_meal(id, None)` followed by `get_meal(id)` returns the
confirmed-absent sentinel; `get_meal` on a store without the key (e.g. the
empty store) returns the distinct miss result `None`. -/
theorem redis_set_meal_none_roundtrip (loads : String → Option PyVal)
    (dumps : PyDict → String) (store : RedisStore) (meal_id : String) :
    RedisCacheBackend.get_meal loads
        (RedisCacheBackend.set_meal dumps (some store) meal_id Option.none) meal_id =
      some .cachedNone ∧
    RedisCacheBackend.get_meal loads (some ([] : RedisStore)) meal_id = Option.none ∧
    (some MealCacheValue.cachedNone ≠ (Option.none : Option MealCacheValue)) := by
  refine ⟨?_, rfl, by simp⟩
  simp only [RedisCacheBackend.set_meal, RedisCacheBackend.get_meal,
    redisGet_redisSet_self]
  rfl

/-- Witness for C6 at a concrete id and serialization. -/
theorem redis_set_meal_none_roundtrip_witness :
    RedisCacheBackend.get_meal (fun _ => Option.none)
        (RedisCacheBackend.set_meal (fun _ => "") (some ([] : RedisStore)) "52772"
          Option.none) "52772" =
      some .cachedNone ∧
    RedisCacheBackend.get_meal (fun _ => Option.none) (some ([] : RedisStore)) "52772" =
      Option.none ∧
    (some MealCacheValue.cachedNone ≠ (Option.none : Option MealCacheValue)) :=
  redis_set_meal_none_roundtrip (fun _ => Option.none) (fun _ => "") [] "52772"

/-! ## `app/models.py`: the pydantic `Recipe` model

Pydantic v2 validation of `Recipe(**migrated)`, embedded field by field in
model-definition order (id, title, description, ingredients, instructions,
tags, cuisine, created_at, updated_at), collecting all field errors.
`id` and the two timestamps have default factories (`uuid4`, `now`);
`Option.none` in the embedded record stands for the generated default.
Constraint errors ("after" validators such as list length) are only
reported when item validation succeeded, as in pydantic. -/

/-- One pydantic error: location path, message, error type. -/
structure ValErr where
  loc : List PyVal
  msg : String
  type : String

/-- The validated `Recipe` (`models.py`, lines 15-42). -/
structure Recipe where
  id : Option String
  title : String
  description : String
  ingredients : List String
  instructions : List String
  tags : List String
  cuisine : Option String
  created_at : Option PyDateTime
  updated_at : Option PyDateTime

/-- Applicative error accumulation across two validated fields. -/
def collect2 : Sum (List ValErr) α → Sum (List ValErr) β → Sum (List ValErr) (α × β)
  | .inl e1, .inl e2 => .inl (e1 ++ e2)
  | .inl e1, .inr _ => .inl e1
  | .inr _, .inl e2 => .inl e2
  | .inr a, .inr b => .inr (a, b)

/-- A required `str` field with `min_length` / `max_length`. -/
def fieldStr (d : PyDict) (name : String) (minL maxL : Nat) :
    Sum (List ValErr) String :=
  match dget d name with
  | Option.none => .inl [⟨[.str name], "Field required", "missing"⟩]
  | some (.str s) =>
      if s.length < minL then
        .inl [⟨[.str name], "String should have at least " ++ toString minL ++
          " character", "string_too_short"⟩]
      else if maxL < s.length then
        .inl [⟨[.str name], "String should have at most " ++ toString maxL ++
          " characters", "string_too_long"⟩]
      else .inr s
  | some _ => .inl [⟨[.str name], "Input should be a valid string", "string_type"⟩]

/-- Validate the items of a `List[str]` field, with per-item locations. -/
def strItemsAux (name : String) : Nat → List PyVal → List ValErr × List String
  | _, [] => ([], [])
  | i, x :: rest =>
      let (es, vs) := strItemsAux name (i + 1) rest
      match x with
      | .str s => (es, s :: vs)
      | _ => (⟨[.str name, .int i], "Input should be a valid string", "string_type"⟩ :: es, vs)

/-- A required `List[str]` field with `min_length` / `max_length`. -/
def fieldStrList (d : PyDict) (name : String) (minL maxL : Nat) :
    Sum (List ValErr) (List String) :=
  match dget d name with
  | Option.none => .inl [⟨[.str name], "Field required", "missing"⟩]
  | some (.list xs) =>
      let (es, vs) := strItemsAux name 0 xs
      if ¬ es.isEmpty then .inl es
      else if xs.length < minL then
        .inl [⟨[.str name], "List should have at least " ++ toString minL ++
          " item after validation, not " ++ toString xs.length, "too_short"⟩]
      else if maxL < xs.length then
        .inl [⟨[.str name], "List should have at most " ++ toString maxL ++
          " items after validation, not " ++ toString xs.length, "too_long"⟩]
      else .inr vs
  | some _ => .inl [⟨[.str name], "Input should be a valid list", "list_type"⟩]

/-- `tags`: defaults to `[]`, bounded above only. -/
def fieldTags (d : PyDict) : Sum (List ValErr) (List String) :=
  match dget d "tags" with
  | Option.none => .inr []
  | some (.list xs) =>
      let (es, vs) := strItemsAux "tags" 0 xs
      if ¬ es.isEmpty then .inl es
      else if 20 < xs.length then
        .inl [⟨[.str "tags"], "List should have at most 20 items after validation, not " ++
          toString xs.length, "too_long"⟩]
      else .inr vs
  | some _ => .inl [⟨[.str "tags"], "Input should be a valid list", "list_type"⟩]

/-- `cuisine`: `Optional[str]` defaulting to `None`, `max_length` 100. -/
def fieldCuisine (d : PyDict) : Sum (List ValErr) (Option String) :=
  match dget d "cuisine" with
  | Option.none => .inr Option.none
  | some .none => .inr Option.none
  | some (.str s) =>
      if 100 < s.length then
        .inl [⟨[.str "cuisine"], "String should have at most 100 characters",
          "string_too_long"⟩]
      else .inr (some s)
  | some _ => .inl [⟨[.str "cuisine"], "Input should be a valid string", "string_type"⟩]

/-- `id`: `str` with a `uuid4` default factory and no length bounds. -/
def fieldId (d : PyDict) : Sum (List ValErr) (Option String) :=
  match dget d "id" with
  | Option.none => .inr Option.none
  | some (.str s) => .inr (some s)
  | some _ => .inl [⟨[.str "id"], "Input should be a valid string", "string_type"⟩]

/-- A `datetime` field with a `now` default factory; pydantic's lax mode
accepts `datetime` objects, ISO strings and numeric unix timestamps. -/
def fieldDateTime (d : PyDict) (name : String) :
    Sum (List ValErr) (Option PyDateTime) :=
  match dget d name with
  | Option.none => .inr Option.none
  | some (.datetime dt) => .inr (some dt)
  | some (.str s) =>
      match pyFromIsoformat s with
      | some dt => .inr (some dt)
      | Option.none =>
          .inl [⟨[.str name], "Input should be a valid datetime",
            "datetime_from_date_parsing"⟩]
  | some (.int n) => .inr (some (.ofTimestamp n))
  | some _ => .inl [⟨[.str name], "Input should be a valid datetime", "datetime_type"⟩]

/-- `Recipe(**d)`: validate all fields in model order, collecting every
field error, as `pydantic.ValidationError` does. -/
def Recipe.validate (d : PyDict) : Except (List ValErr) Recipe :=
  match collect2 (collect2 (collect2 (collect2 (collect2 (collect2 (collect2 (collect2
      (fieldId d) (fieldStr d "title" 1 200)) (fieldStr d "description" 1 10000))
      (fieldStrList d "ingredients" 1 50)) (fieldStrList d "instructions" 1 100))
      (fieldTags d)) (fieldCuisine d)) (fieldDateTime d "created_at"))
      (fieldDateTime d "updated_at") with
  | .inr ((((((((i, t), de), ing), ins), tg), cu), ca), ua) =>
      .ok ⟨i, t, de, ing, ins, tg, cu, ca, ua⟩
  | .inl es => .error es

/-! ## `app/validation.py`: the import validators -/

/-- `validate_recipe_for_import` (`validation.py`, lines 45-75): non-dicts
yield one `type_error`; dicts are migrated (a `ValueError` from migration is
NOT caught — only `ValidationError` is) and validated, errors getting a
`("body",)` location prefix. -/
def validate_recipe_for_import (item : PyVal) :
    Except PyErr (Option Recipe × List ValErr) :=
  match item with
  | .dict recipe_dict =>
      match migrate_legacy_recipe_format recipe_dict with
      | .error e => .error e
      | .ok migrated =>
          match Recipe.validate migrated with
          | .ok r => .ok (some r, [])
          | .error es =>
              .ok (Option.none,
                es.map (fun e => ⟨.str "body" :: e.loc, e.msg, e.type⟩))
  | _ =>
      .ok (Option.none,
        [⟨[.str "body"], "Each item must be an object, got " ++ pyTypeName item,
          "type_error"⟩])

/-- One import error after enrichment with provenance. -/
structure ImportErr where
  loc : List PyVal
  msg : String
  type : String
  index : Nat
  recipe_id : PyVal
  recipe_title : PyVal

/-- `item.get("id", "?") if isinstance(item, dict) else "?"` (line 98). -/
def rawRecipeId (item : PyVal) : PyVal :=
  match item with
  | .dict d => dgetD d "id" (.str "?")
  | _ => .str "?"

/-- `item.get("title", "<no title>") if isinstance(item, dict) else "<no title>"`
(line 99). -/
def rawRecipeTitle (item : PyVal) : PyVal :=
  match item with
  | .dict d => dgetD d "title" (.str "<no title>")
  | _ => .str "<no title>"

/-- The error enrichment of the loop body (lines 95-100). -/
def enrichError (i : Nat) (item : PyVal) (e : ValErr) : ImportErr :=
  { loc := e.loc, msg := e.msg, type := e.type, index := i,
    recipe_id := rawRecipeId item, recipe_title := rawRecipeTitle item }

/-- The `for i, item in enumerate(recipes_data)` loop of
`validate_recipes_for_import` (lines 92-102), carrying the running index. -/
def importLoop : Nat → List PyVal → Except PyErr (List Recipe × List ImportErr)
  | _, [] => .ok ([], [])
  | i, item :: rest =>
      match validate_recipe_for_import item with
      | .error e => .error e
      | .ok (recipe?, errs) =>
          match importLoop (i + 1) rest with
          | .error e => .error e
          | .ok (vs, es) =>
              if errs.isEmpty then
                match recipe? with
                | some r => .ok (r :: vs, es)
                | Option.none => .ok (vs, es)
              else .ok (vs, errs.map (enrichError i item) ++ es)

/-- `validate_recipes_for_import` (`validation.py`, lines 78-104). -/
def validate_recipes_for_import (recipes_data : List PyVal) :
    Except PyErr (List Recipe × List ImportErr) :=
  importLoop 0 recipes_data

/-! ## Claims C7 and C8: batch validation -/

/-- The spec's two-record batch example. -/
def importBatchExample : List PyVal :=
  [.dict [("title", .str "ok"), ("description", .str "d"),
          ("ingredients", .list [.str "a"]), ("instructions", .list [.str "s"]),
          ("tags", .list []), ("cuisine", .none)],
   .dict [("title", .str "bad"), ("description", .str "d"),
          ("ingredients", .list []), ("instructions", .list [.str "s"]),
          ("tags", .list []), ("cuisine", .none)]]

/-- The one valid Recipe of the batch example (from index 0). -/
def importOkRecipe : Recipe :=
  { id := Option.none, title := "ok", description := "d", ingredients := ["a"],
    instructions := ["s"], tags := [], cuisine := Option.none,
    created_at := Option.none, updated_at := Option.none }

/-- The one error of the batch example (from index 1, empty ingredients). -/
def importBadError : ImportErr :=
  { loc := [.str "body", .str "ingredients"],
    msg := "List should have at least 1 item after validation, not 0",
    type := "too_short", index := 1, recipe_id := .str "?",
    recipe_title := .str "bad" }

/-- C7: on the spec's two-record batch, `validate_recipes_for_import`
returns exactly one valid Recipe (the index-0 record) and exactly one
error, whose index is 1 and whose location path mentions `ingredients`. -/
theorem validate_recipes_batch_example :
    validate_recipes_for_import importBatchExample =
      .ok ([importOkRecipe], [importBadError]) ∧
    importOkRecipe.title = "ok" ∧
    importBadError.index = 1 ∧
    PyVal.str "ingredients" ∈ importBadError.loc :=
  ⟨rfl, rfl, rfl, List.mem_cons_of_mem _ (List.mem_cons_self _ _)⟩

theorem importLoop_errors (xs : List PyVal) :
    ∀ (i : Nat) (res : List Recipe × List ImportErr),
      importLoop i xs = .ok res →
      ∀ e ∈ res.2, i ≤ e.index ∧ e.index - i < xs.length ∧
        e.recipe_id = rawRecipeId (xs.getD (e.index - i) PyVal.none) ∧
        e.recipe_title = rawRecipeTitle (xs.getD (e.index - i) PyVal.none) := by
  induction xs with
  | nil =>
      intro i res h e he
      simp only [importLoop] at h
      injection h with h2
      subst h2
      simp at he
  | cons item rest ih =>
      intro i res h e he
      simp only [importLoop] at h
      cases hv : validate_recipe_for_import item with
      | error err =>
          simp only [hv] at h
          exact absurd h (by simp)
      | ok pr =>
          obtain ⟨recipe?, errs⟩ := pr
          simp only [hv] at h
          cases hrest : importLoop (i + 1) rest with
          | error err =>
              simp only [hrest] at h
              exact absurd h (by simp)
          | ok pr2 =>
              obtain ⟨vs, es⟩ := pr2
              simp only [hrest] at h
              by_cases hempty : errs.isEmpty
              · rw [if_pos hempty] at h
                have hres : res.2 = es := by
                  cases recipe? with
                  | some r => injection h with h2; rw [← h2]
                  | none => injection h with h2; rw [← h2]
                rw [hres] at he
                obtain ⟨h1, h2, h3, h4⟩ := ih (i + 1) (vs, es) hrest e he
                have hidx : e.index - i = (e.index - (i + 1)) + 1 := by omega
                refine ⟨by omega, ?_, ?_, ?_⟩
                · simp only [List.length_cons]
                  omega
                · rw [hidx, List.getD_cons_succ]
                  exact h3
                · rw [hidx, List.getD_cons_succ]
                  exact h4
              · rw [if_neg hempty] at h
                injection h with h2
                rw [← h2] at he
                rcases List.mem_append.mp he with hmem | hmem
                · obtain ⟨e0, _, heq⟩ := List.mem_map.mp hmem
                  rw [← heq]
                  refine ⟨le_refl i, ?_, ?_, ?_⟩
                  · simp [enrichError]
                  · simp [enrichError, List.getD_cons_zero]
                  · simp [enrichError, List.getD_cons_zero]
                · obtain ⟨h1, h2, h3, h4⟩ := ih (i + 1) (vs, es) hrest e hmem
                  have hidx : e.index - i = (e.index - (i + 1)) + 1 := by omega
                  refine ⟨by omega, ?_, ?_, ?_⟩
                  · simp only [List.length_cons]
                    omega
                  · rw [hidx, List.getD_cons_succ]
                    exact h3
                  · rw [hidx, List.getD_cons_succ]
                    exact h4

/-- C8: every error emitted by `validate_recipes_for_import` carries its
record's batch index and a `recipe_id` / `recipe_title` taken from the raw
(unnormalized) record via `rawRecipeId` / `rawRecipeTitle` — which default
to "?" and "<no title>" when the record is not a mapping or lacks the key. -/
theorem validate_recipes_errors_provenance (recipes_data : List PyVal)
    (res : List Recipe × List ImportErr)
    (h : validate_recipes_for_import recipes_data = .ok res) :
    ∀ e ∈ res.2, e.index < recipes_data.length ∧
      e.recipe_id = rawRecipeId (recipes_data.getD e.index PyVal.none) ∧
      e.recipe_title = rawRecipeTitle (recipes_data.getD e.index PyVal.none) := by
  intro e he
  obtain ⟨_, h2, h3, h4⟩ := importLoop_errors recipes_data 0 res h e he
  rw [Nat.sub_zero] at h2 h3 h4
  exact ⟨h2, h3, h4⟩

/-- A batch whose only record is not a mapping. -/
def nonMappingBatch : List PyVal := [PyVal.int 5]

/-- The one (enriched) error produced for `nonMappingBatch`. -/
def nonMappingErr : ImportErr :=
  { loc := [.str "body"], msg := "Each item must be an object, got int",
    type := "type_error", index := 0, recipe_id := .str "?",
    recipe_title := .str "<no title>" }

/-- Witness for C8 at a concrete malformed batch. -/
theorem validate_recipes_errors_provenance_witness :
    nonMappingErr.index < nonMappingBatch.length ∧
      nonMappingErr.recipe_id =
        rawRecipeId (nonMappingBatch.getD nonMappingErr.index PyVal.none) ∧
      nonMappingErr.recipe_title =
        rawRecipeTitle (nonMappingBatch.getD nonMappingErr.index PyVal.none) :=
  validate_recipes_errors_provenance nonMappingBatch ([], [nonMappingErr]) rfl
    nonMappingErr (List.mem_singleton.mpr rfl)

end RecipeExplorer

